import Mathlib

/-!
# X-Legend_Lib: the coordinate extraction example

A shallow embedding of `extract_coordinates_example.cpp`.  The program is a
driver around the class `Seraph::FSM` of the X-Legend library: it loads a map,
prints the two counts, runs the two exports, shuts the map down and reports.

The library object is embedded as an arbitrary state machine (`FSM σ`): every
member function takes the current library state and returns its result with
the next state.  The driver is embedded by explicit state passing over `Proc`,
which carries the library object, the trace of member function calls made so
far (with the values they returned) and the text written to the two standard
streams.
-/

namespace XLegend

/-! ## Library interface -/

/-- One call of a member function of `Seraph::FSM` made by the driver, with the
arguments it was given and the value it returned. -/
inductive Call where
  | Load (path : String) (ret : Bool)
  | GetHeightMapCount (ret : Int)
  | GetObjectCount (ret : Int)
  | ExportTerrainCoordinates (path : String) (ret : Bool)
  | ExportObjectCoordinates (path : String) (ret : Bool)
  | Shutdown
  deriving DecidableEq, Repr

/-- Names of the member functions of `Seraph::FSM` used by the driver. -/
inductive Op where
  | Load
  | GetHeightMapCount
  | GetObjectCount
  | ExportTerrainCoordinates
  | ExportObjectCoordinates
  | Shutdown
  deriving DecidableEq, Repr

/-- The member function a call event belongs to. -/
def Call.op : Call → Op
  | .Load _ _ => .Load
  | .GetHeightMapCount _ => .GetHeightMapCount
  | .GetObjectCount _ => .GetObjectCount
  | .ExportTerrainCoordinates _ _ => .ExportTerrainCoordinates
  | .ExportObjectCoordinates _ _ => .ExportObjectCoordinates
  | .Shutdown => .Shutdown

/-- The class `Seraph::FSM` of `FSM.h`, as an oracle: `σ` is the hidden state of
the object, `init` the state after default construction (`Seraph::FSM mapa;`),
and every member function maps a state (and its argument) to the returned
value and the next state.  Nothing is assumed about any of them. -/
structure FSM (σ : Type) where
  init : σ
  Load : σ → String → Bool × σ
  GetHeightMapCount : σ → Int × σ
  GetObjectCount : σ → Int × σ
  ExportTerrainCoordinates : σ → String → Bool × σ
  ExportObjectCoordinates : σ → String → Bool × σ
  Shutdown : σ → σ

/-! ## Process state -/

/-- State of the running program: the object `mapa`, the member function calls
made so far (oldest first), and what the program has written to `std::cout` and
to `std::cerr` (one entry per output statement, oldest first). -/
structure Proc (σ : Type) where
  mapa : σ
  calls : List Call
  cout : List String
  cerr : List String

/-- Result of a run: the value returned from `main` and the final state. -/
structure Run (σ : Type) where
  exitCode : Int
  mapa : σ
  calls : List Call
  cout : List String
  cerr : List String

/-- Text written by `std::endl`. -/
def endl : String := "\n"

/-- State at entry of `main`, after `Seraph::FSM mapa;`. -/
def Proc.start {σ : Type} (lib : FSM σ) : Proc σ :=
  { mapa := lib.init, calls := [], cout := [], cerr := [] }

/-- Statement `std::cout << s << std::endl;`. -/
def Proc.coutLn {σ : Type} (p : Proc σ) (s : String) : Proc σ :=
  { p with cout := p.cout ++ [s ++ endl] }

/-- Expression `mapa.Load(path)`. -/
def Proc.Load {σ : Type} (lib : FSM σ) (p : Proc σ) (path : String) : Bool × Proc σ :=
  let r := lib.Load p.mapa path
  (r.1, { p with mapa := r.2, calls := p.calls ++ [Call.Load path r.1] })

/-- Expression `mapa.GetHeightMapCount()`. -/
def Proc.GetHeightMapCount {σ : Type} (lib : FSM σ) (p : Proc σ) : Int × Proc σ :=
  let r := lib.GetHeightMapCount p.mapa
  (r.1, { p with mapa := r.2, calls := p.calls ++ [Call.GetHeightMapCount r.1] })

/-- Expression `mapa.GetObjectCount()`. -/
def Proc.GetObjectCount {σ : Type} (lib : FSM σ) (p : Proc σ) : Int × Proc σ :=
  let r := lib.GetObjectCount p.mapa
  (r.1, { p with mapa := r.2, calls := p.calls ++ [Call.GetObjectCount r.1] })

/-- Expression `mapa.ExportTerrainCoordinates(path)`. -/
def Proc.ExportTerrainCoordinates {σ : Type} (lib : FSM σ) (p : Proc σ) (path : String) :
    Bool × Proc σ :=
  let r := lib.ExportTerrainCoordinates p.mapa path
  (r.1, { p with mapa := r.2, calls := p.calls ++ [Call.ExportTerrainCoordinates path r.1] })

/-- Expression `mapa.ExportObjectCoordinates(path)`. -/
def Proc.ExportObjectCoordinates {σ : Type} (lib : FSM σ) (p : Proc σ) (path : String) :
    Bool × Proc σ :=
  let r := lib.ExportObjectCoordinates p.mapa path
  (r.1, { p with mapa := r.2, calls := p.calls ++ [Call.ExportObjectCoordinates path r.1] })

/-- Statement `mapa.Shutdown();`. -/
def Proc.Shutdown {σ : Type} (lib : FSM σ) (p : Proc σ) : Proc σ :=
  { p with mapa := lib.Shutdown p.mapa, calls := p.calls ++ [Call.Shutdown] }

/-- Statement `return code;` in `main`. -/
def Proc.ret {σ : Type} (p : Proc σ) (code : Int) : Run σ :=
  { exitCode := code, mapa := p.mapa, calls := p.calls, cout := p.cout, cerr := p.cerr }

/-! ## The driver -/

/-- Local variable `arquivoFSM` of `main`. -/
def arquivoFSM : String := "meu_mapa.fsm"

/-- Function `main` of `extract_coordinates_example.cpp`. -/
def main {σ : Type} (lib : FSM σ) : Run σ :=
  let p := Proc.start lib
  let p := p.coutLn ("Carregando arquivo FSM: " ++ arquivoFSM)
  let l := p.Load lib arquivoFSM
  if l.1 then
    let p := l.2.coutLn "✅ Arquivo carregado com sucesso!"
    let p := p.coutLn "📊 Informações do mapa:"
    let h := p.GetHeightMapCount lib
    let p := h.2.coutLn ("   - Heightmaps: " ++ toString h.1)
    let o := p.GetObjectCount lib
    let p := o.2.coutLn ("   - Objetos: " ++ toString o.1)
    let p := p.coutLn "\n🗺️ Extraindo coordenadas do terreno..."
    let t := p.ExportTerrainCoordinates lib "terrain_coordinates.txt"
    let p :=
      if t.1 then
        t.2.coutLn "✅ Coordenadas do terreno salvas em: terrain_coordinates.txt"
      else
        t.2.coutLn "❌ Erro ao salvar coordenadas do terreno"
    let p := p.coutLn "\n🏠 Extraindo coordenadas dos objetos..."
    let b := p.ExportObjectCoordinates lib "object_coordinates.txt"
    let p :=
      if b.1 then
        b.2.coutLn "✅ Coordenadas dos objetos salvas em: object_coordinates.txt"
      else
        b.2.coutLn "❌ Erro ao salvar coordenadas dos objetos"
    let p := p.Shutdown lib
    let p := p.coutLn "\n🎉 Extração concluída!"
    let p := p.coutLn "\n📁 Arquivos gerados:"
    let p := p.coutLn "   - terrain_coordinates.txt (coordenadas X,Y,Z do terreno)"
    let p := p.coutLn "   - object_coordinates.txt (coordenadas X,Y,Z dos objetos)"
    p.ret 0
  else
    let p := l.2.coutLn ("❌ Erro ao carregar arquivo FSM: " ++ arquivoFSM)
    let p := p.coutLn "Verifique se o arquivo existe e está no formato correto."
    p.ret (-1)

/-- Start of the process with command line `argv`.  The entry point is declared
`int main()`, without parameters: the command line does not reach the program. -/
def invoke {σ : Type} (_argv : List String) (lib : FSM σ) : Run σ :=
  main lib

/-! ## Observations on a run -/

/-- Values returned by the calls of `Load` in a trace, in order. -/
def loadResults : List Call → List Bool
  | [] => []
  | .Load _ r :: cs => r :: loadResults cs
  | _ :: cs => loadResults cs

/-- Paths given to the calls of `Load` in a trace, in order. -/
def loadPaths : List Call → List String
  | [] => []
  | .Load p _ :: cs => p :: loadPaths cs
  | _ :: cs => loadPaths cs

/-- Everything the program has printed, on either stream. -/
def Run.printed {σ : Type} (r : Run σ) : List String :=
  r.cout ++ r.cerr

/-- Success message of the load. -/
def msgLoadOk : String := "✅ Arquivo carregado com sucesso!" ++ endl

/-- Error diagnostic of the load of `path`. -/
def msgLoadErr (path : String) : String := "❌ Erro ao carregar arquivo FSM: " ++ path ++ endl

/-- Success message of the terrain export to `path`. -/
def msgTerrainOk (path : String) : String :=
  "✅ Coordenadas do terreno salvas em: " ++ path ++ endl

/-- Error diagnostic of the terrain export. -/
def msgTerrainErr : String := "❌ Erro ao salvar coordenadas do terreno" ++ endl

/-- Success message of the object export to `path`. -/
def msgObjectOk (path : String) : String :=
  "✅ Coordenadas dos objetos salvas em: " ++ path ++ endl

/-- Error diagnostic of the object export. -/
def msgObjectErr : String := "❌ Erro ao salvar coordenadas dos objetos" ++ endl

/-- What the driver owes to a call, given the list `out` of what it printed:
for `Load` and the two exports, the success message of the operation is in
`out` and its error diagnostic is not when the call returned true, and the
other way round when it returned false.  Nothing is owed to the other calls. -/
def Reported (out : List String) : Call → Prop
  | .Load p true => msgLoadOk ∈ out ∧ msgLoadErr p ∉ out
  | .Load p false => msgLoadErr p ∈ out ∧ msgLoadOk ∉ out
  | .ExportTerrainCoordinates p true => msgTerrainOk p ∈ out ∧ msgTerrainErr ∉ out
  | .ExportTerrainCoordinates p false => msgTerrainErr ∈ out ∧ msgTerrainOk p ∉ out
  | .ExportObjectCoordinates p true => msgObjectOk p ∈ out ∧ msgObjectErr ∉ out
  | .ExportObjectCoordinates p false => msgObjectErr ∈ out ∧ msgObjectOk p ∉ out
  | .GetHeightMapCount _ => True
  | .GetObjectCount _ => True
  | .Shutdown => True

/-- First character of a string, if any. -/
def firstChar (s : String) : Option Char :=
  s.data.head?

/-- A library that fails to load. -/
def failingLib : FSM Unit :=
  { init := (),
    Load := fun _ _ => (false, ()),
    GetHeightMapCount := fun _ => (0, ()),
    GetObjectCount := fun _ => (0, ()),
    ExportTerrainCoordinates := fun _ _ => (false, ()),
    ExportObjectCoordinates := fun _ _ => (false, ()),
    Shutdown := fun _ => () }

/-- A library whose state counts the calls made, that loads a map with 2
heightmaps and 3 objects, and whose exports return `t` and `b`. -/
def countingLib (t b : Bool) : FSM Nat :=
  { init := 0,
    Load := fun s _ => (true, s + 1),
    GetHeightMapCount := fun s => (2, s + 1),
    GetObjectCount := fun s => (3, s + 1),
    ExportTerrainCoordinates := fun s _ => (t, s + 1),
    ExportObjectCoordinates := fun s _ => (b, s + 1),
    Shutdown := fun s => s + 1 }

/-! ## The library states passed through by a run -/

/-- Result of `mapa.Load(arquivoFSM)` on the freshly constructed object. -/
def atLoad {σ : Type} (lib : FSM σ) : Bool × σ :=
  lib.Load lib.init arquivoFSM

/-- Result of `mapa.GetHeightMapCount()` after the load. -/
def atHeightMapCount {σ : Type} (lib : FSM σ) : Int × σ :=
  lib.GetHeightMapCount (atLoad lib).2

/-- Result of `mapa.GetObjectCount()` after the heightmap count. -/
def atObjectCount {σ : Type} (lib : FSM σ) : Int × σ :=
  lib.GetObjectCount (atHeightMapCount lib).2

/-- Result of the terrain export after the object count. -/
def atTerrain {σ : Type} (lib : FSM σ) : Bool × σ :=
  lib.ExportTerrainCoordinates (atObjectCount lib).2 "terrain_coordinates.txt"

/-- Result of the object export after the terrain export. -/
def atObject {σ : Type} (lib : FSM σ) : Bool × σ :=
  lib.ExportObjectCoordinates (atTerrain lib).2 "object_coordinates.txt"

/-! ## Terrain export

`ExportTerrainCoordinates` is implemented in the library, whose sources are
not part of the example; its output is modelled from the format description.
Floating-point values are kept abstract: the export only passes them to a
formatter `fmt`. -/

/-- Modelled from the spec: a heightmap layer of the scene (the class behind
`GetHeightMapCount` is missing): `layerId`, grid dimensions `width` and
`height`, `scale`, and the `samples` in row-major order. -/
structure HeightmapLayer (F : Type) where
  layerId : Int
  width : Nat
  height : Nat
  scale : F
  samples : List F

/-- Modelled from the spec: the scene held by the library between load and
export, reduced to its ordered sequence of heightmap layers. -/
structure Scene (F : Type) where
  layers : List (HeightmapLayer F)

/-- Modelled from the spec: the three fixed comment lines that open
`terrain_coordinates.txt` (the writer of the file is missing). -/
def terrainPreamble : List String :=
  ["# Terrain Coordinates Export", "# Format: X,Y,Z (Height)", "# LayerID,X,Y,Height"]

/-- Modelled from the spec: header comment line of a layer,
`# Layer <layerId> - Width: <width>, Height: <height>, Scale: <scale>`. -/
def layerHeaderLine {F : Type} (fmt : F → String) (l : HeightmapLayer F) : String :=
  "# Layer " ++ toString l.layerId ++ " - Width: " ++ toString l.width ++
    ", Height: " ++ toString l.height ++ ", Scale: " ++ fmt l.scale

/-- Modelled from the spec: one sample line `<layerId>,<x>,<y>,<height>`. -/
def sampleLine {F : Type} (fmt : F → String) (layerId : Int) (x y : Nat) (v : F) : String :=
  toString layerId ++ "," ++ toString x ++ "," ++ toString y ++ "," ++ fmt v

/-- Modelled from the spec: the loop over the samples of a layer (missing from
the sources), from position `index` on: each sample yields one line with
`x = index % width` and `y = index / width`. -/
def sampleLines {F : Type} (fmt : F → String) (layerId : Int) (width : Nat) :
    Nat → List F → List String
  | _, [] => []
  | index, v :: vs =>
      sampleLine fmt layerId (index % width) (index / width) v ::
        sampleLines fmt layerId width (index + 1) vs

/-- Modelled from the spec: the lines written for one layer (the writer is
missing): its header line, then its sample lines. -/
def layerBlock {F : Type} (fmt : F → String) (l : HeightmapLayer F) : List String :=
  layerHeaderLine fmt l :: sampleLines fmt l.layerId l.width 0 l.samples

/-- Modelled from the spec: the blocks of the layers in scene order, each after
a blank line (the writer is missing). -/
def layerBlocks {F : Type} (fmt : F → String) : List (HeightmapLayer F) → List String
  | [] => []
  | l :: ls => "" :: (layerBlock fmt l ++ layerBlocks fmt ls)

/-- Modelled from the spec: the lines of the file written by a successful
`ExportTerrainCoordinates` (missing from the sources) for a scene. -/
def terrainFile {F : Type} (fmt : F → String) (s : Scene F) : List String :=
  terrainPreamble ++ layerBlocks fmt s.layers

/-- A formatter with one decimal place, for values given in tenths. -/
def fmtTenths (t : Nat) : String :=
  toString (t / 10) ++ "." ++ toString (t % 10)

/-- The layer of the format description: layer 0, 256 samples wide, of which
one row is kept, starting with the heights 15.5, 15.8, 16.1. -/
def docLayer : HeightmapLayer Nat :=
  { layerId := 0, width := 256, height := 1, scale := 10,
    samples := [155, 158, 161] ++ List.replicate 253 150 }

/-- A scene made of a 2 by 2 layer followed by `docLayer`. -/
def docScene : Scene Nat :=
  { layers := [{ layerId := 7, width := 2, height := 2, scale := 25,
                 samples := [10, 11, 12, 13] }, docLayer] }

/-! ## Unfolding the driver -/

section Unfold

variable {σ : Type}

theorem main_load_failed (lib : FSM σ) (h : (atLoad lib).1 = false) :
    main lib =
      { exitCode := -1,
        mapa := (atLoad lib).2,
        calls := [Call.Load arquivoFSM false],
        cout := ["Carregando arquivo FSM: " ++ arquivoFSM ++ endl,
                 "❌ Erro ao carregar arquivo FSM: " ++ arquivoFSM ++ endl,
                 "Verifique se o arquivo existe e está no formato correto." ++ endl],
        cerr := [] } := by
  unfold atLoad at h
  simp [main, Proc.start, Proc.coutLn, Proc.Load, Proc.ret, h, atLoad]

theorem main_load_ok (lib : FSM σ) (h : (atLoad lib).1 = true) :
    main lib =
      { exitCode := 0,
        mapa := lib.Shutdown (atObject lib).2,
        calls := [Call.Load arquivoFSM true,
                  Call.GetHeightMapCount (atHeightMapCount lib).1,
                  Call.GetObjectCount (atObjectCount lib).1,
                  Call.ExportTerrainCoordinates "terrain_coordinates.txt" (atTerrain lib).1,
                  Call.ExportObjectCoordinates "object_coordinates.txt" (atObject lib).1,
                  Call.Shutdown],
        cout := ["Carregando arquivo FSM: " ++ arquivoFSM ++ endl,
                 "✅ Arquivo carregado com sucesso!" ++ endl,
                 "📊 Informações do mapa:" ++ endl,
                 "   - Heightmaps: " ++ toString (atHeightMapCount lib).1 ++ endl,
                 "   - Objetos: " ++ toString (atObjectCount lib).1 ++ endl,
                 "\n🗺️ Extraindo coordenadas do terreno..." ++ endl,
                 (if (atTerrain lib).1 = true then
                    "✅ Coordenadas do terreno salvas em: terrain_coordinates.txt"
                  else "❌ Erro ao salvar coordenadas do terreno") ++ endl,
                 "\n🏠 Extraindo coordenadas dos objetos..." ++ endl,
                 (if (atObject lib).1 = true then
                    "✅ Coordenadas dos objetos salvas em: object_coordinates.txt"
                  else "❌ Erro ao salvar coordenadas dos objetos") ++ endl,
                 "\n🎉 Extração concluída!" ++ endl,
                 "\n📁 Arquivos gerados:" ++ endl,
                 "   - terrain_coordinates.txt (coordenadas X,Y,Z do terreno)" ++ endl,
                 "   - object_coordinates.txt (coordenadas X,Y,Z dos objetos)" ++ endl],
        cerr := [] } := by
  cases ht : (atTerrain lib).1 <;> cases hb : (atObject lib).1 <;>
    (unfold atObject atTerrain atObjectCount atHeightMapCount atLoad at *
     simp [main, Proc.start, Proc.coutLn, Proc.Load, Proc.GetHeightMapCount,
       Proc.GetObjectCount, Proc.ExportTerrainCoordinates, Proc.ExportObjectCoordinates,
       Proc.Shutdown, Proc.ret, h, ht, hb])

theorem firstChar_append (a b : String) (c : Char) (h : firstChar a = some c) :
    firstChar (a ++ b) = some c := by
  unfold firstChar at *
  rw [String.data_append]
  cases hd : a.data with
  | nil => rw [hd] at h; simp at h
  | cons x xs => rw [hd] at h; simpa using h

theorem countLine_ne (a : String) (n : Int) (m : String) (c : Char)
    (ha : firstChar a = some c) (hm : firstChar m ≠ some c) :
    a ++ toString n ++ endl ≠ m := by
  intro e
  apply hm
  rw [← e]
  exact firstChar_append _ _ c (firstChar_append _ _ c ha)

theorem loadResults_main (lib : FSM σ) :
    loadResults (main lib).calls = [(atLoad lib).1] := by
  cases h : (atLoad lib).1
  · rw [main_load_failed lib h]; rfl
  · rw [main_load_ok lib h]; rfl

theorem atLoad_of_mem (lib : FSM σ) (b : Bool) (h : b ∈ loadResults (main lib).calls) :
    (atLoad lib).1 = b := by
  rw [loadResults_main] at h
  simp at h
  exact h.symm

end Unfold

/-! ## Exit code -/

/-- C1: for every library, `main` returns 0 if `Load` returned true and -1 if
`Load` returned false; the exit code is 0 exactly when `Load` succeeded, and
`Load` is called exactly once in every run. -/
theorem main_exitCode (σ : Type) (lib : FSM σ) :
    (true ∈ loadResults (main lib).calls → (main lib).exitCode = 0) ∧
    (false ∈ loadResults (main lib).calls → (main lib).exitCode = -1) ∧
    ((main lib).exitCode = 0 ↔ true ∈ loadResults (main lib).calls) ∧
    (∃ b, loadResults (main lib).calls = [b]) := by
  have hr := loadResults_main lib
  cases h : (atLoad lib).1
  · rw [h] at hr
    rw [hr, main_load_failed lib h]
    simp
  · rw [h] at hr
    rw [hr, main_load_ok lib h]
    simp

/-- Witness for C1 on a failing and on a succeeding library. -/
theorem main_exitCode_witness :
    (main failingLib).exitCode = -1 ∧ (main (countingLib true true)).exitCode = 0 :=
  ⟨(main_exitCode Unit failingLib).2.1 (by decide),
   (main_exitCode Nat (countingLib true true)).1 (by decide)⟩

/-! ## Failed load -/

/-- C2: in every run in which `Load` returned false, the trace of library calls
is the single call of `Load`; no export is invoked. -/
theorem main_load_failed_calls (σ : Type) (lib : FSM σ)
    (h : false ∈ loadResults (main lib).calls) :
    (main lib).calls = [Call.Load arquivoFSM false] ∧
    (∀ c ∈ (main lib).calls,
      c.op ≠ Op.ExportTerrainCoordinates ∧ c.op ≠ Op.ExportObjectCoordinates) := by
  have hl := atLoad_of_mem lib false h
  rw [main_load_failed lib hl]
  simp [Call.op]

/-- Witness for C2 on the failing library. -/
theorem main_load_failed_calls_witness :
    false ∈ loadResults (main failingLib).calls ∧
    (main failingLib).calls = [Call.Load "meu_mapa.fsm" false] :=
  ⟨by decide, (main_load_failed_calls Unit failingLib (by decide)).1⟩

/-! ## Reporting of results -/

theorem reported_of_mem {σ : Type} (lib : FSM σ) (c : Call) (hc : c ∈ (main lib).calls) :
    Reported (main lib).printed c := by
  cases hl : (atLoad lib).1
  · rw [main_load_failed lib hl] at hc ⊢
    simp only [List.mem_singleton] at hc
    subst hc
    simp only [Run.printed, List.append_nil, Reported]
    decide
  · rw [main_load_ok lib hl] at hc ⊢
    have n1 := fun m hm => countLine_ne "   - Heightmaps: " (atHeightMapCount lib).1 m ' ' (by decide) hm
    have n2 := fun m hm => countLine_ne "   - Objetos: " (atObjectCount lib).1 m ' ' (by decide) hm
    simp only [List.mem_cons, List.mem_singleton, List.not_mem_nil, or_false] at hc
    simp only [Run.printed, List.append_nil]
    cases ht : (atTerrain lib).1 <;> cases hb : (atObject lib).1 <;>
      rcases hc with hc | hc | hc | hc | hc | hc <;> subst hc <;>
      simp only [ht, hb, Reported, List.mem_cons, List.mem_singleton, List.not_mem_nil, or_false,
        not_or, if_true, if_false, Bool.false_eq_true] <;>
      first
      | trivial
      | (refine ⟨?_, ?_, ?_, ?_, ?_, ?_, ?_, ?_, ?_, ?_, ?_, ?_, ?_, ?_⟩
         all_goals first
           | decide
           | exact (n1 _ (by decide)).symm
           | exact (n2 _ (by decide)).symm
           | repeat (first | exact Or.inl (by decide) | apply Or.inr))

/-- C3: for every call of `Load`, `ExportTerrainCoordinates` or
`ExportObjectCoordinates` made in a run, the program prints the success
message of that operation if it returned true and its error diagnostic if it
returned false, and does not print the other one. -/
theorem main_reports_each_result (σ : Type) (lib : FSM σ) (c : Call)
    (hc : c ∈ (main lib).calls) : Reported (main lib).printed c :=
  reported_of_mem lib c hc

/-- Witness for C3: a run whose load and terrain export succeed and whose
object export fails prints the object export diagnostic and not its success
message. -/
theorem main_reports_each_result_witness :
    Call.ExportObjectCoordinates "object_coordinates.txt" false ∈
        (main (countingLib true false)).calls ∧
    ("❌ Erro ao salvar coordenadas dos objetos\n" ∈ (main (countingLib true false)).printed ∧
     "✅ Coordenadas dos objetos salvas em: object_coordinates.txt\n" ∉
        (main (countingLib true false)).printed) :=
  ⟨by decide,
   main_reports_each_result Nat (countingLib true false)
     (Call.ExportObjectCoordinates "object_coordinates.txt" false) (by decide)⟩

/-! ## Streams -/

/-- C4, as stated, fails: after a run in which `Load` returned false the error
stream is empty. -/
theorem main_load_failed_cerr_empty :
    false ∈ loadResults (main failingLib).calls ∧ (main failingLib).cerr = [] := by
  decide

/-- C4, amended: in every run in which `Load` returned false, the diagnostic
naming the file that failed to load is written to standard output (followed by
a hint), and nothing is written to the error stream. -/
theorem main_load_failed_diagnostic (σ : Type) (lib : FSM σ)
    (h : false ∈ loadResults (main lib).calls) :
    (main lib).cout =
      ["Carregando arquivo FSM: meu_mapa.fsm\n",
       "❌ Erro ao carregar arquivo FSM: meu_mapa.fsm\n",
       "Verifique se o arquivo existe e está no formato correto.\n"] ∧
    msgLoadErr arquivoFSM ∈ (main lib).cout ∧
    (main lib).cerr = [] := by
  have hl := atLoad_of_mem lib false h
  rw [main_load_failed lib hl]
  dsimp only
  exact ⟨by decide, by decide, rfl⟩

/-- Witness for the amended C4 on the failing library. -/
theorem main_load_failed_diagnostic_witness :
    false ∈ loadResults (main failingLib).calls ∧
    "❌ Erro ao carregar arquivo FSM: meu_mapa.fsm\n" ∈ (main failingLib).cout :=
  ⟨by decide, (main_load_failed_diagnostic Unit failingLib (by decide)).2.1⟩

/-! ## Successful load -/

/-- C5: in every run in which `Load` returned true, whatever the two exports
return, the library calls are exactly `Load`, `GetHeightMapCount`,
`GetObjectCount`, `ExportTerrainCoordinates`, `ExportObjectCoordinates`,
`Shutdown`, in this order, each once. -/
theorem main_load_ok_calls (σ : Type) (lib : FSM σ)
    (h : true ∈ loadResults (main lib).calls) :
    (main lib).calls.map Call.op =
      [Op.Load, Op.GetHeightMapCount, Op.GetObjectCount, Op.ExportTerrainCoordinates,
       Op.ExportObjectCoordinates, Op.Shutdown] ∧
    (main lib).calls =
      [Call.Load arquivoFSM true,
       Call.GetHeightMapCount (atHeightMapCount lib).1,
       Call.GetObjectCount (atObjectCount lib).1,
       Call.ExportTerrainCoordinates "terrain_coordinates.txt" (atTerrain lib).1,
       Call.ExportObjectCoordinates "object_coordinates.txt" (atObject lib).1,
       Call.Shutdown] := by
  have hl := atLoad_of_mem lib true h
  rw [main_load_ok lib hl]
  simp [Call.op]

/-- Witness for C5 on a library whose two exports fail. -/
theorem main_load_ok_calls_witness :
    true ∈ loadResults (main (countingLib false false)).calls ∧
    (main (countingLib false false)).calls.map Call.op =
      [Op.Load, Op.GetHeightMapCount, Op.GetObjectCount, Op.ExportTerrainCoordinates,
       Op.ExportObjectCoordinates, Op.Shutdown] :=
  ⟨by decide, (main_load_ok_calls Nat (countingLib false false) (by decide)).1⟩

/-! ## Paths -/

/-- C6: whatever the command line, every call of `ExportTerrainCoordinates`
made by the program is given the path `terrain_coordinates.txt` and every call
of `ExportObjectCoordinates` the path `object_coordinates.txt`; when such a
call returns true, the success message printed names the same file; and in a
run whose load succeeded both calls are made. -/
theorem export_paths (σ : Type) (lib : FSM σ) (argv : List String) (c : Call)
    (hc : c ∈ (invoke argv lib).calls) :
    (∀ p r, c = Call.ExportTerrainCoordinates p r →
      p = "terrain_coordinates.txt" ∧
      (r = true →
        "✅ Coordenadas do terreno salvas em: " ++ p ++ endl ∈ (invoke argv lib).cout ∧
        "✅ Coordenadas do terreno salvas em: " ++ p ++ endl =
          "✅ Coordenadas do terreno salvas em: terrain_coordinates.txt\n")) ∧
    (∀ p r, c = Call.ExportObjectCoordinates p r →
      p = "object_coordinates.txt" ∧
      (r = true →
        "✅ Coordenadas dos objetos salvas em: " ++ p ++ endl ∈ (invoke argv lib).cout ∧
        "✅ Coordenadas dos objetos salvas em: " ++ p ++ endl =
          "✅ Coordenadas dos objetos salvas em: object_coordinates.txt\n")) ∧
    (true ∈ loadResults (invoke argv lib).calls →
      (∃ t, Call.ExportTerrainCoordinates "terrain_coordinates.txt" t ∈
        (invoke argv lib).calls) ∧
      (∃ b, Call.ExportObjectCoordinates "object_coordinates.txt" b ∈
        (invoke argv lib).calls)) := by
  have hrep := reported_of_mem lib c hc
  unfold invoke at *
  cases hl : (atLoad lib).1
  · rw [main_load_failed lib hl] at hc
    simp only [List.mem_singleton] at hc
    subst hc
    refine ⟨fun p r e => (by cases e), fun p r e => (by cases e), fun h => ?_⟩
    have := atLoad_of_mem lib true h
    rw [hl] at this
    cases this
  · have hcalls := main_load_ok lib hl
    have hc2 := hc
    rw [hcalls] at hc2
    simp only [List.mem_cons, List.mem_singleton, List.not_mem_nil, or_false] at hc2
    have hcout : (main lib).printed = (main lib).cout := by
      rw [hcalls]; simp [Run.printed]
    rw [hcout] at hrep
    refine ⟨?_, ?_, fun _ => ⟨⟨(atTerrain lib).1, ?_⟩, ⟨(atObject lib).1, ?_⟩⟩⟩
    · intro p r e
      subst e
      have hp : p = "terrain_coordinates.txt" := by
        rcases hc2 with h | h | h | h | h | h <;> cases h
        rfl
      subst hp
      refine ⟨rfl, fun hr => ?_⟩
      subst hr
      exact ⟨hrep.1, by decide⟩
    · intro p r e
      subst e
      have hp : p = "object_coordinates.txt" := by
        rcases hc2 with h | h | h | h | h | h <;> cases h
        rfl
      subst hp
      refine ⟨rfl, fun hr => ?_⟩
      subst hr
      exact ⟨hrep.1, by decide⟩
    · rw [hcalls]; simp
    · rw [hcalls]; simp

/-- Witness for C6: the terrain export of a run without command line
arguments. -/
theorem export_paths_witness :
    Call.ExportTerrainCoordinates "terrain_coordinates.txt" true ∈
        (invoke ["extract_coordinates_example"] (countingLib true true)).calls ∧
    "✅ Coordenadas do terreno salvas em: terrain_coordinates.txt\n" ∈
        (invoke ["extract_coordinates_example"] (countingLib true true)).cout :=
  ⟨by decide,
   (((export_paths Nat (countingLib true true) ["extract_coordinates_example"]
      (Call.ExportTerrainCoordinates "terrain_coordinates.txt" true) (by decide)).1
      "terrain_coordinates.txt" true rfl).2 rfl).1⟩

/-- C7, as stated, fails: invoked with the input path `outro_mapa.fsm`, the
program calls `Load` with `meu_mapa.fsm` and never with `outro_mapa.fsm`. -/
theorem invoke_ignores_input_path :
    loadPaths (invoke ["extract_coordinates_example", "outro_mapa.fsm"] failingLib).calls =
      ["meu_mapa.fsm"] ∧
    "outro_mapa.fsm" ∉
      loadPaths (invoke ["extract_coordinates_example", "outro_mapa.fsm"] failingLib).calls := by
  decide

/-- C7, amended: for every invocation, whatever its command line, `main` calls
`Load` exactly once and with the fixed path `meu_mapa.fsm`. -/
theorem invoke_load_path (σ : Type) (lib : FSM σ) (argv : List String) :
    loadPaths (invoke argv lib).calls = ["meu_mapa.fsm"] := by
  unfold invoke
  cases hl : (atLoad lib).1
  · rw [main_load_failed lib hl]; rfl
  · rw [main_load_ok lib hl]; rfl

/-! ## Console output of a successful run -/

/-- C9: in every run in which `Load` returned true, the calls start with
`Load`, `GetHeightMapCount`, `GetObjectCount`, the rest of the calls being the
two exports and `Shutdown` (so each count is queried once, after the load and
before any export), and the console output contains the heightmap line
directly followed by the object line, carrying the values the two calls
returned. -/
theorem main_counts (σ : Type) (lib : FSM σ) (h : true ∈ loadResults (main lib).calls) :
    ∃ (hm oc : Int) (rest : List Call) (pre post : List String),
      (main lib).calls =
        [Call.Load arquivoFSM true, Call.GetHeightMapCount hm, Call.GetObjectCount oc] ++ rest ∧
      rest.map Call.op =
        [Op.ExportTerrainCoordinates, Op.ExportObjectCoordinates, Op.Shutdown] ∧
      (main lib).cout =
        pre ++ ["   - Heightmaps: " ++ toString hm ++ "\n",
                "   - Objetos: " ++ toString oc ++ "\n"] ++ post := by
  have hl := atLoad_of_mem lib true h
  rw [main_load_ok lib hl]
  exact ⟨(atHeightMapCount lib).1, (atObjectCount lib).1,
    [Call.ExportTerrainCoordinates "terrain_coordinates.txt" (atTerrain lib).1,
     Call.ExportObjectCoordinates "object_coordinates.txt" (atObject lib).1, Call.Shutdown],
    ["Carregando arquivo FSM: " ++ arquivoFSM ++ endl,
     "✅ Arquivo carregado com sucesso!" ++ endl,
     "📊 Informações do mapa:" ++ endl],
    ["\n🗺️ Extraindo coordenadas do terreno..." ++ endl,
     (if (atTerrain lib).1 = true then
        "✅ Coordenadas do terreno salvas em: terrain_coordinates.txt"
      else "❌ Erro ao salvar coordenadas do terreno") ++ endl,
     "\n🏠 Extraindo coordenadas dos objetos..." ++ endl,
     (if (atObject lib).1 = true then
        "✅ Coordenadas dos objetos salvas em: object_coordinates.txt"
      else "❌ Erro ao salvar coordenadas dos objetos") ++ endl,
     "\n🎉 Extração concluída!" ++ endl,
     "\n📁 Arquivos gerados:" ++ endl,
     "   - terrain_coordinates.txt (coordenadas X,Y,Z do terreno)" ++ endl,
     "   - object_coordinates.txt (coordenadas X,Y,Z dos objetos)" ++ endl],
    rfl, rfl, rfl⟩

/-- Witness for C9 on a library reporting 2 heightmaps and 3 objects. -/
theorem main_counts_witness :
    true ∈ loadResults (main (countingLib true true)).calls ∧
    ∃ (hm oc : Int) (rest : List Call) (pre post : List String),
      (main (countingLib true true)).calls =
        [Call.Load arquivoFSM true, Call.GetHeightMapCount hm, Call.GetObjectCount oc] ++ rest ∧
      rest.map Call.op =
        [Op.ExportTerrainCoordinates, Op.ExportObjectCoordinates, Op.Shutdown] ∧
      (main (countingLib true true)).cout =
        pre ++ ["   - Heightmaps: " ++ toString hm ++ "\n",
                "   - Objetos: " ++ toString oc ++ "\n"] ++ post :=
  ⟨by decide, main_counts Nat (countingLib true true) (by decide)⟩

/-- C10: in every run in which `Load` returned true, whatever the two exports
returned, the console output ends with the completion message and the list of
generated files naming `terrain_coordinates.txt` and `object_coordinates.txt`. -/
theorem main_completion (σ : Type) (lib : FSM σ) (h : true ∈ loadResults (main lib).calls) :
    ∃ pre : List String,
      (main lib).cout =
        pre ++ ["\n🎉 Extração concluída!\n",
                "\n📁 Arquivos gerados:\n",
                "   - terrain_coordinates.txt (coordenadas X,Y,Z do terreno)\n",
                "   - object_coordinates.txt (coordenadas X,Y,Z dos objetos)\n"] := by
  have hl := atLoad_of_mem lib true h
  rw [main_load_ok lib hl]
  exact ⟨["Carregando arquivo FSM: " ++ arquivoFSM ++ endl,
          "✅ Arquivo carregado com sucesso!" ++ endl,
          "📊 Informações do mapa:" ++ endl,
          "   - Heightmaps: " ++ toString (atHeightMapCount lib).1 ++ endl,
          "   - Objetos: " ++ toString (atObjectCount lib).1 ++ endl,
          "\n🗺️ Extraindo coordenadas do terreno..." ++ endl,
          (if (atTerrain lib).1 = true then
             "✅ Coordenadas do terreno salvas em: terrain_coordinates.txt"
           else "❌ Erro ao salvar coordenadas do terreno") ++ endl,
          "\n🏠 Extraindo coordenadas dos objetos..." ++ endl,
          (if (atObject lib).1 = true then
             "✅ Coordenadas dos objetos salvas em: object_coordinates.txt"
           else "❌ Erro ao salvar coordenadas dos objetos") ++ endl], by
    simp only [List.cons_append, List.nil_append]
    congr 9⟩

/-- Witness for C10 on a library whose two exports both fail. -/
theorem main_completion_witness :
    true ∈ loadResults (main (countingLib false false)).calls ∧
    Call.ExportTerrainCoordinates "terrain_coordinates.txt" false ∈
      (main (countingLib false false)).calls ∧
    Call.ExportObjectCoordinates "object_coordinates.txt" false ∈
      (main (countingLib false false)).calls ∧
    ∃ pre : List String,
      (main (countingLib false false)).cout =
        pre ++ ["\n🎉 Extração concluída!\n",
                "\n📁 Arquivos gerados:\n",
                "   - terrain_coordinates.txt (coordenadas X,Y,Z do terreno)\n",
                "   - object_coordinates.txt (coordenadas X,Y,Z dos objetos)\n"] :=
  ⟨by decide, by decide, by decide, main_completion Nat (countingLib false false) (by decide)⟩

/-! ## Terrain export -/

section Terrain

variable {F : Type}

theorem sampleLines_length (fmt : F → String) (layerId : Int) (width : Nat) (vs : List F) :
    ∀ k, (sampleLines fmt layerId width k vs).length = vs.length := by
  induction vs with
  | nil => intro k; rfl
  | cons v vs ih => intro k; simp [sampleLines, ih]

theorem sampleLines_getElem? (fmt : F → String) (layerId : Int) (width : Nat) (vs : List F) :
    ∀ k i, (sampleLines fmt layerId width k vs)[i]? =
      vs[i]?.map (fun v => sampleLine fmt layerId ((k + i) % width) ((k + i) / width) v) := by
  induction vs with
  | nil => intro k i; simp [sampleLines]
  | cons v vs ih =>
    intro k i
    cases i with
    | zero => simp [sampleLines]
    | succ i =>
      simp only [sampleLines, List.getElem?_cons_succ, ih]
      rw [show k + 1 + i = k + (i + 1) by omega]

theorem layerBlocks_mem (fmt : F → String) (l : HeightmapLayer F) :
    ∀ ls : List (HeightmapLayer F), l ∈ ls →
      ∃ pre post, layerBlocks fmt ls = pre ++ "" :: layerBlock fmt l ++ post := by
  intro ls
  induction ls with
  | nil => intro h; cases h
  | cons a ls ih =>
    intro h
    rcases List.mem_cons.1 h with h | h
    · subst h
      exact ⟨[], layerBlocks fmt ls, by simp [layerBlocks]⟩
    · obtain ⟨pre, post, e⟩ := ih h
      exact ⟨"" :: (layerBlock fmt a ++ pre), post, by simp [layerBlocks, e]⟩

end Terrain

/-- C8: for every layer of the scene with `width > 0` whose samples fill the
grid, the terrain file contains the block of the layer: its header line
carrying `layerId`, `width`, `height` and `scale`, followed by exactly
`width * height` sample lines, the line of sample `i` (in increasing order of
`i`) being `layerId,x,y,height` with `x = i % width` and `y = i / width`, both
inside the grid. -/
theorem terrain_export_layer (F : Type) (fmt : F → String) (s : Scene F)
    (l : HeightmapLayer F) (hl : l ∈ s.layers) (hw : 0 < l.width)
    (hs : l.samples.length = l.width * l.height) :
    (∃ pre post, terrainFile fmt s = pre ++ layerBlock fmt l ++ post) ∧
    (layerBlock fmt l).length = 1 + l.width * l.height ∧
    (layerBlock fmt l)[0]? = some (layerHeaderLine fmt l) ∧
    ∀ i, i < l.width * l.height →
      ∃ v, l.samples[i]? = some v ∧
        (layerBlock fmt l)[i + 1]? =
          some (sampleLine fmt l.layerId (i % l.width) (i / l.width) v) ∧
        i % l.width < l.width ∧ i / l.width < l.height := by
  refine ⟨?_, ?_, by simp [layerBlock], ?_⟩
  · obtain ⟨pre, post, e⟩ := layerBlocks_mem fmt l s.layers hl
    exact ⟨terrainPreamble ++ pre ++ [""], post, by simp [terrainFile, e]⟩
  · simp [layerBlock, sampleLines_length, hs, Nat.add_comm]
  · intro i hi
    have hlt : i < l.samples.length := by rw [hs]; exact hi
    refine ⟨l.samples[i], List.getElem?_eq_getElem hlt, ?_, Nat.mod_lt _ hw,
      Nat.div_lt_of_lt_mul hi⟩
    simp [layerBlock, sampleLines_getElem?, List.getElem?_eq_getElem hlt]

/-- Witness for C8: the first lines of the block of layer 0, of width 256, are
the header and the samples at (0,0), (1,0), (2,0). -/
theorem terrain_export_layer_witness :
    docLayer ∈ docScene.layers ∧ 0 < docLayer.width ∧
    docLayer.samples.length = docLayer.width * docLayer.height ∧
    (layerBlock fmtTenths docLayer).take 4 =
      ["# Layer 0 - Width: 256, Height: 1, Scale: 1.0",
       "0,0,0,15.5", "0,1,0,15.8", "0,2,0,16.1"] ∧
    (∃ v, docLayer.samples[2]? = some v ∧
      (layerBlock fmtTenths docLayer)[2 + 1]? = some (sampleLine fmtTenths 0 2 0 v) ∧
      2 % docLayer.width < docLayer.width ∧ 2 / docLayer.width < docLayer.height) :=
  ⟨List.Mem.tail _ (List.Mem.head _), by decide, by simp only [docLayer, List.length_append, List.length_replicate, List.length_cons,
      List.length_nil, Nat.reduceAdd, Nat.reduceMul], by decide,
   (terrain_export_layer Nat fmtTenths docScene docLayer (List.Mem.tail _ (List.Mem.head _))
      (by decide) (by simp only [docLayer, List.length_append, List.length_replicate, List.length_cons,
      List.length_nil, Nat.reduceAdd, Nat.reduceMul])).2.2.2 2 (by decide)⟩

end XLegend
